import Mathlib

/-!
Shallow embedding of `Source/Core/Common/Logging/LogManager.cpp` (Dolphin
logging dispatcher): the category registry, level filtering, fan-out to
listeners, the file sink, configuration loading and process lifecycle.

External collaborators (timestamp formatting, varargs formatting, ini
parsing, path resolution) enter as plain input values, matching the spec's
boundary. Enumerations and the bitset type live in headers that are not
part of the translated source; they are modelled from the spec where noted.
-/

/-- Modelled from the spec: the ordered log-level enumeration from the
missing `Log.h` header. Smaller value = higher severity; the minimum valid
level is 1 and the maximum valid level is `MAX_LOGLEVEL`
(Notice < Error < Warning < Info < Debug). Levels are carried as `Nat`. -/
def MAX_LOGLEVEL : Nat := 5

def LNOTICE : Nat := 1

def LERROR : Nat := 2

def LWARNING : Nat := 3

def LINFO : Nat := 4

def LDEBUG : Nat := 5

/-- Modelled from the spec: the character encoding a level in the emitted
line prefix, from the `LOG_LEVEL_TO_CHAR` table of the missing header. -/
def LOG_LEVEL_TO_CHAR (level : Nat) : Char :=
  match level with
  | 1 => 'N'
  | 2 => 'E'
  | 3 => 'W'
  | 4 => 'I'
  | 5 => 'D'
  | _ => '-'

/-- Modelled from the spec: the listener identities of the missing
`LogListener::LISTENER` enumeration (File, Console, Window), small dense
integers usable as indices into a 32-bit membership set. -/
def FILE_LISTENER : Fin 32 := 0

def CONSOLE_LISTENER : Fin 32 := 1

def LOG_WINDOW_LISTENER : Fin 32 := 2

/-- Source `LogContainer` (LogManager.cpp lines 51-74): per-category state.
`BitSet32 m_listener_ids` is modelled as its membership function
`Fin 32 → Bool` (bit `i` set iff the function is true at `i`). -/
structure LogContainer where
  m_full_name : String
  m_short_name : String
  m_enable : Bool
  m_listener_ids : Fin 32 → Bool

/-- Constructor `LogContainer::LogContainer(short_name, full_name, enable = false)`:
fresh container with the empty listener set. -/
def LogContainer.mkNew (short_name full_name : String) : LogContainer :=
  { m_full_name := full_name
    m_short_name := short_name
    m_enable := false
    m_listener_ids := fun _ => false }

def LogContainer.GetShortName (c : LogContainer) : String := c.m_short_name

def LogContainer.GetFullName (c : LogContainer) : String := c.m_full_name

/-- Source line `m_listener_ids[id] = 1` -/
def LogContainer.AddListener (c : LogContainer) (id : Fin 32) : LogContainer :=
  { c with m_listener_ids := Function.update c.m_listener_ids id true }

/-- Source line `m_listener_ids[id] = 0` -/
def LogContainer.RemoveListener (c : LogContainer) (id : Fin 32) : LogContainer :=
  { c with m_listener_ids := Function.update c.m_listener_ids id false }

def LogContainer.IsEnabled (c : LogContainer) : Bool := c.m_enable

def LogContainer.SetEnable (c : LogContainer) (enable : Bool) : LogContainer :=
  { c with m_enable := enable }

/-- Conversion `bool(m_listener_ids)`: the bitset converts to true iff some bit is set. -/
def LogContainer.HasListeners (c : LogContainer) : Bool :=
  (List.finRange 32).any c.m_listener_ids

/-- Iteration over the set bits of `BitSet32`, in ascending index order. -/
def LogContainer.listenerList (c : LogContainer) : List (Fin 32) :=
  (List.finRange 32).filter c.m_listener_ids

/-- The closed `LogTypes::LOG_TYPE` enumeration, read off the registry the
constructor populates (LogManager.cpp lines 98-144). Three constructors are
named `AUDIO_T`, `DISCIO_T`, `IOS_FILEIO_T` for the source's
`AUDIO`, `DISCIO`, `IOS_FILEIO`. -/
inductive LOG_TYPE where
  | ACTIONREPLAY | AUDIO_T | AUDIO_INTERFACE | BOOT | COMMANDPROCESSOR
  | COMMON | CONSOLE | CORE | DISCIO_T | DSPHLE | DSPLLE | DSP_MAIL
  | DSPINTERFACE | DVDINTERFACE | DYNA_REC | EXPANSIONINTERFACE | FILEMON
  | GDB_STUB | GPFIFO | HOST_GPU | IOS | IOS_DI | IOS_ES | IOS_FILEIO_T
  | IOS_SD | IOS_SSL | IOS_STM | IOS_NET | IOS_USB | IOS_WC24 | IOS_WIIMOTE
  | MASTER_LOG | MEMCARD_MANAGER | MEMMAP | NETPLAY | OSHLE | OSREPORT
  | PAD | PIXELENGINE | PROCESSORINTERFACE | POWERPC | SERIALINTERFACE
  | SP1 | VIDEO | VIDEOINTERFACE | WIIMOTE | WII_IPC
deriving DecidableEq

open LOG_TYPE in
/-- The container created for each category in `LogManager::LogManager`
(lines 98-144): short name and full name per `LOG_TYPE`. -/
def initContainer (t : LOG_TYPE) : LogContainer :=
  match t with
  | ACTIONREPLAY => .mkNew "ActionReplay" "ActionReplay"
  | AUDIO_T => .mkNew "Audio" "Audio Emulator"
  | AUDIO_INTERFACE => .mkNew "AI" "Audio Interface (AI)"
  | BOOT => .mkNew "BOOT" "Boot"
  | COMMANDPROCESSOR => .mkNew "CP" "CommandProc"
  | COMMON => .mkNew "COMMON" "Common"
  | CONSOLE => .mkNew "CONSOLE" "Dolphin Console"
  | CORE => .mkNew "CORE" "Core"
  | DISCIO_T => .mkNew "DIO" "Disc IO"
  | DSPHLE => .mkNew "DSPHLE" "DSP HLE"
  | DSPLLE => .mkNew "DSPLLE" "DSP LLE"
  | DSP_MAIL => .mkNew "DSPMails" "DSP Mails"
  | DSPINTERFACE => .mkNew "DSP" "DSPInterface"
  | DVDINTERFACE => .mkNew "DVD" "DVD Interface"
  | DYNA_REC => .mkNew "JIT" "Dynamic Recompiler"
  | EXPANSIONINTERFACE => .mkNew "EXI" "Expansion Interface"
  | FILEMON => .mkNew "FileMon" "File Monitor"
  | GDB_STUB => .mkNew "GDB_STUB" "GDB Stub"
  | GPFIFO => .mkNew "GP" "GPFifo"
  | HOST_GPU => .mkNew "Host GPU" "Host GPU"
  | IOS => .mkNew "IOS" "IOS"
  | IOS_DI => .mkNew "IOS_DI" "IOS - Drive Interface"
  | IOS_ES => .mkNew "IOS_ES" "IOS - ETicket Services"
  | IOS_FILEIO_T => .mkNew "IOS_FILEIO" "IOS - FileIO"
  | IOS_SD => .mkNew "IOS_SD" "IOS - SDIO"
  | IOS_SSL => .mkNew "IOS_SSL" "IOS - SSL"
  | IOS_STM => .mkNew "IOS_STM" "IOS - State Transition Manager"
  | IOS_NET => .mkNew "IOS_NET" "IOS - Network"
  | IOS_USB => .mkNew "IOS_USB" "IOS - USB"
  | IOS_WC24 => .mkNew "IOS_WC24" "IOS - WiiConnect24"
  | IOS_WIIMOTE => .mkNew "IOS_WIIMOTE" "IOS - Wii Remote"
  | MASTER_LOG => .mkNew "*" "Master Log"
  | MEMCARD_MANAGER => .mkNew "MemCard Manager" "MemCard Manager"
  | MEMMAP => .mkNew "MI" "MI & memmap"
  | NETPLAY => .mkNew "NETPLAY" "Netplay"
  | OSHLE => .mkNew "HLE" "HLE"
  | OSREPORT => .mkNew "OSREPORT" "OSReport"
  | PAD => .mkNew "PAD" "Pad"
  | PIXELENGINE => .mkNew "PE" "PixelEngine"
  | PROCESSORINTERFACE => .mkNew "PI" "ProcessorInt"
  | POWERPC => .mkNew "PowerPC" "IBM CPU"
  | SERIALINTERFACE => .mkNew "SI" "Serial Interface (SI)"
  | SP1 => .mkNew "SP1" "Serial Port 1"
  | VIDEO => .mkNew "Video" "Video Backend"
  | VIDEOINTERFACE => .mkNew "VI" "Video Interface (VI)"
  | WIIMOTE => .mkNew "Wiimote" "Wiimote"
  | WII_IPC => .mkNew "WII_IPC" "WII IPC"

/-- Source `FileLogListener` (lines 23-49). `m_logfile` is modelled by its
observable state: `m_valid` is `m_logfile.good()` (whether the open in the
constructor succeeded and the handle stayed writable), `m_contents` is the
sequence of strings written to the file. -/
structure FileLogListener where
  m_valid : Bool
  m_enable : Bool
  m_contents : List String

/-- Constructor `FileLogListener(filename)`: `File::OpenFStream` may fail (that outcome
is the input `openOk`); `SetEnable(true)` runs unconditionally. -/
def FileLogListener.construct (openOk : Bool) : FileLogListener :=
  { m_valid := openOk, m_enable := true, m_contents := [] }

def FileLogListener.IsValid (f : FileLogListener) : Bool := f.m_valid

def FileLogListener.IsEnabled (f : FileLogListener) : Bool := f.m_enable

def FileLogListener.SetEnable (f : FileLogListener) (enable : Bool) : FileLogListener :=
  { f with m_enable := enable }

/-- Source `FileLogListener::Log` (lines 32-39): no-op unless enabled and valid;
otherwise append the message verbatim and flush. -/
def FileLogListener.Log (f : FileLogListener) (_level : Nat) (msg : String) : FileLogListener :=
  if !f.IsEnabled || !f.IsValid then f
  else { f with m_contents := f.m_contents ++ [msg] }

/-- The configuration values the constructor reads through `IniFile`
(lines 150-176). `none` is a missing key; `Section::Get(key, &v, d)` yields
the default `d` when the key is missing. -/
structure IniConfig where
  write_to_file : Option Bool
  write_to_console : Option Bool
  write_to_window : Option Bool
  verbosity : Option Int
  logs : String → Option Bool

/-- Lines 166-169: clamp the verbosity read from configuration into the
valid level range, in two sequential comparisons as in the source. -/
def clampVerbosity (v0 : Int) : Int :=
  let v1 := if v0 < 1 then 1 else v0
  if v1 > (MAX_LOGLEVEL : Int) then (MAX_LOGLEVEL : Int) else v1

/-- The per-container configuration wiring of the constructor loop
(lines 173-184): set the enable flag, then subscribe the File / Console /
Window ids when the category is enabled and the matching boolean is set. -/
def wireContainer (c0 : LogContainer) (enable wf wc ww : Bool) : LogContainer :=
  let c1 := c0.SetEnable enable
  let c2 := if enable && wf then c1.AddListener FILE_LISTENER else c1
  let c3 := if enable && wc then c2.AddListener CONSOLE_LISTENER else c2
  if enable && ww then c3.AddListener LOG_WINDOW_LISTENER else c3

/-- Pattern `DIR_SEP "Source" DIR_SEP "Core" DIR_SEP` (line 88). -/
def pathCutoffPattern : String := "/Source/Core/"

/-- Index of the first occurrence of `pat` in the haystack
(`std::string::find`), as a character index. -/
def findSubstrPos (pat : List Char) : List Char → Option Nat
  | [] => if pat.isEmpty then some 0 else none
  | c :: rest =>
    if pat.isPrefixOf (c :: rest) then some 0
    else (findSubstrPos pat rest).map (· + 1)

/-- Source `DeterminePathCutOffPoint` (lines 86-93): position just after the first
occurrence of the pattern in this translation unit's `__FILE__` string
(an input here), or 0 when the pattern does not occur. -/
def determinePathCutOffPoint (thisFile : String) : Nat :=
  match findSubstrPos pathCutoffPattern.toList thisFile.toList with
  | some pos => pos + pathCutoffPattern.length
  | none => 0

/-- Source `LogManager` state: the category registry, the global threshold, the
listener table (`m_listeners[id]` modelled by whether a live instance is
registered at `id`), and the path cutoff. -/
structure LogManager where
  m_log : LOG_TYPE → LogContainer
  m_level : Nat
  m_listeners : Fin 32 → Bool
  m_path_cutoff_point : Nat

/-- Source `LogManager::RegisterListener` (lines 255-258): install an instance at
`id`, overwriting any previous entry. -/
def LogManager.RegisterListener (m : LogManager) (id : Fin 32) : LogManager :=
  { m with m_listeners := Function.update m.m_listeners id true }

/-- Constructor `LogManager::LogManager` (lines 95-187): populate the registry, register
the File and Console listeners, read configuration with the documented
defaults, clamp and set the verbosity, and wire each container. -/
def mkLogManager (cfg : IniConfig) (thisFile : String) : LogManager :=
  let write_file := cfg.write_to_file.getD false
  let write_console := cfg.write_to_console.getD true
  let write_window := cfg.write_to_window.getD true
  let verbosity := cfg.verbosity.getD 0
  { m_log := fun t =>
      let c := initContainer t
      wireContainer c ((cfg.logs c.GetShortName).getD false)
        write_file write_console write_window
    m_level := (clampVerbosity verbosity).toNat
    m_listeners :=
      Function.update (Function.update (fun _ => false) FILE_LISTENER true)
        CONSOLE_LISTENER true
    m_path_cutoff_point := determinePathCutOffPoint thisFile }

/-- The listener slots the destructor `LogManager::~LogManager`
(lines 189-197) destroys: the Console and File entries; the log window
listener pointer is owned by the GUI code and is not deleted. -/
def destructorDeletedListenerIds : List (Fin 32) :=
  [CONSOLE_LISTENER, FILE_LISTENER]

/-- The observable outcome of one call to the log entry point: whether the
message body was formatted (`CharArrayFromFormatV` ran), and the `Log`
(emit) calls made, as (listener id, delivered line) in call order. -/
structure LogResult where
  did_format : Bool
  emits : List (Fin 32 × String)
deriving DecidableEq

/-- The `StringFromFormat("%s %s:%u %c[%s]: %s\n", ...)` call of
`LogWithFullPath` (lines 216-218). -/
def formatLine (timestamp file : String) (line : Nat) (level : Nat)
    (short msg : String) : String :=
  timestamp ++ " " ++ file ++ ":" ++ toString line ++ " " ++
    String.singleton (LOG_LEVEL_TO_CHAR level) ++ "[" ++ short ++ "]: " ++ msg ++ "\n"

/-- Source `LogManager::LogWithFullPath` (lines 205-223). `timestamp` is
`Common::Timer::GetTimeFormatted()` and `msg` the varargs-formatted body,
both external collaborators passed as values. -/
def LogManager.LogWithFullPath (m : LogManager) (level : Nat) (type : LOG_TYPE)
    (timestamp : String) (file : String) (line : Nat) (msg : String) : LogResult :=
  let log := m.m_log type
  if !log.IsEnabled || level > m.m_level || !log.HasListeners then
    { did_format := false, emits := [] }
  else
    let s := formatLine timestamp file line level log.GetShortName msg
    { did_format := true
      emits := (log.listenerList.filter m.m_listeners).map fun id => (id, s) }

/-- Source `LogManager::Log` (lines 199-203): truncate the caller's file path by
the cutoff point, then dispatch. -/
def LogManager.Log (m : LogManager) (level : Nat) (type : LOG_TYPE)
    (timestamp : String) (file : String) (line : Nat) (msg : String) : LogResult :=
  m.LogWithFullPath level type timestamp (file.drop m.m_path_cutoff_point) line msg

def LogManager.GetLogLevel (m : LogManager) : Nat := m.m_level

def LogManager.SetLogLevel (m : LogManager) (level : Nat) : LogManager :=
  { m with m_level := level }

def LogManager.SetEnable (m : LogManager) (type : LOG_TYPE) (enable : Bool) : LogManager :=
  { m with m_log := Function.update m.m_log type ((m.m_log type).SetEnable enable) }

def LogManager.IsEnabled (m : LogManager) (type : LOG_TYPE) (level : Nat) : Bool :=
  (m.m_log type).IsEnabled && decide (m.GetLogLevel ≥ level)

def LogManager.AddListener (m : LogManager) (type : LOG_TYPE) (id : Fin 32) : LogManager :=
  { m with m_log := Function.update m.m_log type ((m.m_log type).AddListener id) }

def LogManager.RemoveListener (m : LogManager) (type : LOG_TYPE) (id : Fin 32) : LogManager :=
  { m with m_log := Function.update m.m_log type ((m.m_log type).RemoveListener id) }

/-- The process-wide singleton `s_log_manager` (line 271): `none` before
`Init` and after `Shutdown`. -/
def LogManagerInit (cfg : IniConfig) (thisFile : String) : Option LogManager :=
  some (mkLogManager cfg thisFile)

/-- Source `LogManager::Shutdown` (lines 283-287): delete the instance and null
the global pointer. -/
def LogManagerShutdown (_g : Option LogManager) : Option LogManager := none

/-- Source `GenericLog` (lines 76-84): dispatch through the instance when one
exists, else do nothing. -/
def GenericLog (g : Option LogManager) (level : Nat) (type : LOG_TYPE)
    (timestamp : String) (file : String) (line : Nat) (msg : String) : LogResult :=
  match g with
  | none => { did_format := false, emits := [] }
  | some m => m.Log level type timestamp file line msg

/-- The configuration of the spec's end-to-end scenario: category "Audio"
enabled, WriteToConsole=true, WriteToFile=false, Verbosity=Info; the
WriteToWindow key is left missing. -/
def cfgScenario : IniConfig :=
  { write_to_file := some false
    write_to_console := some true
    write_to_window := none
    verbosity := some 4
    logs := fun s => if s = "Audio" then some true else some false }

/-- A small concrete dispatcher used to instantiate the hypotheses of the
universally quantified theorems on a specific state. -/
def mScenario : LogManager := mkLogManager cfgScenario ""

/-! ## General lemmas about the embedded operations -/

lemma mem_listenerList {c : LogContainer} {id : Fin 32} :
    id ∈ c.listenerList ↔ c.m_listener_ids id = true := by
  simp [LogContainer.listenerList, List.mem_filter, List.mem_finRange]

lemma listenerList_nodup (c : LogContainer) : c.listenerList.Nodup :=
  (List.nodup_finRange 32).filter _

lemma hasListeners_iff {c : LogContainer} :
    c.HasListeners = true ↔ ∃ i, c.m_listener_ids i = true := by
  simp [LogContainer.HasListeners, List.any_eq_true, List.mem_finRange]

/-- Unfolded form of the dispatch routine, for case analysis on the
filter guard. -/
lemma logWithFullPath_eq (m : LogManager) (level : Nat) (type : LOG_TYPE)
    (ts file : String) (line : Nat) (msg : String) :
    m.LogWithFullPath level type ts file line msg =
      if !(m.m_log type).IsEnabled || decide (level > m.m_level) ||
          !(m.m_log type).HasListeners then
        { did_format := false, emits := [] }
      else
        { did_format := true
          emits := ((m.m_log type).listenerList.filter m.m_listeners).map
            fun id => (id, formatLine ts file line level (m.m_log type).GetShortName msg) } :=
  rfl

lemma guard_eq_false_iff {c : LogContainer} {level l : Nat} :
    (!c.IsEnabled || decide (level > l) || !c.HasListeners) = false ↔
      (c.m_enable = true ∧ level ≤ l ∧ c.HasListeners = true) := by
  simp [LogContainer.IsEnabled, Nat.not_lt, and_assoc]

/-! ## Claims -/

/-- C1: a message is delivered to a Listener only if that Listener's id is
in the target Category's listener set, a live Listener is registered at
that id, the Category is enabled, and the level is within the global
threshold. -/
theorem claim_C1_delivery_guard (m : LogManager) (level : Nat) (type : LOG_TYPE)
    (ts file : String) (line : Nat) (msg : String) (p : Fin 32 × String)
    (hp : p ∈ (m.LogWithFullPath level type ts file line msg).emits) :
    (m.m_log type).m_listener_ids p.1 = true ∧ m.m_listeners p.1 = true ∧
      (m.m_log type).m_enable = true ∧ level ≤ m.m_level := by
  rw [logWithFullPath_eq] at hp
  by_cases hg : (!(m.m_log type).IsEnabled || decide (level > m.m_level) ||
      !(m.m_log type).HasListeners) = true
  · rw [if_pos hg] at hp
    simp at hp
  · rw [if_neg hg] at hp
    obtain ⟨hen, hlev, _⟩ := guard_eq_false_iff.mp (Bool.not_eq_true _ ▸ hg)
    simp only [List.mem_map] at hp
    obtain ⟨id, hid, hpe⟩ := hp
    rw [List.mem_filter] at hid
    refine ⟨?_, ?_, hen, hlev⟩
    · rw [← hpe]
      exact mem_listenerList.mp hid.1
    · rw [← hpe]
      exact hid.2

/-- Witness for C1 on a concrete dispatcher state and delivered message. -/
theorem claim_C1_delivery_guard_witness :
    ((CONSOLE_LISTENER, "12:34:567 audio.cpp:42 W[Audio]: buffer underrun\n") ∈
        (mScenario.LogWithFullPath LWARNING LOG_TYPE.AUDIO_T "12:34:567"
          "audio.cpp" 42 "buffer underrun").emits) ∧
      ((mScenario.m_log LOG_TYPE.AUDIO_T).m_listener_ids CONSOLE_LISTENER = true ∧
        mScenario.m_listeners CONSOLE_LISTENER = true ∧
        (mScenario.m_log LOG_TYPE.AUDIO_T).m_enable = true ∧
        LWARNING ≤ mScenario.m_level) :=
  ⟨by decide,
    claim_C1_delivery_guard mScenario LWARNING LOG_TYPE.AUDIO_T "12:34:567"
      "audio.cpp" 42 "buffer underrun"
      (CONSOLE_LISTENER, "12:34:567 audio.cpp:42 W[Audio]: buffer underrun\n")
      (by decide)⟩

/-- C3: when the category is disabled, the level is strictly less severe
than the threshold, or the listener set is empty, the call returns at once:
no formatting is performed and no Listener is invoked. -/
theorem claim_C3_filtered_call_is_noop (m : LogManager) (level : Nat)
    (type : LOG_TYPE) (ts file : String) (line : Nat) (msg : String)
    (h : (m.m_log type).m_enable = false ∨ m.m_level < level ∨
      (m.m_log type).HasListeners = false) :
    m.LogWithFullPath level type ts file line msg =
      { did_format := false, emits := [] } := by
  rw [logWithFullPath_eq, if_pos]
  rcases h with h | h | h
  · simp [LogContainer.IsEnabled, h]
  · simp [h]
  · simp [h]

/-- Witness for C3: a disabled category on a concrete state. -/
theorem claim_C3_filtered_call_is_noop_witness :
    ((mScenario.m_log LOG_TYPE.BOOT).m_enable = false ∨
        mScenario.m_level < LWARNING ∨
        (mScenario.m_log LOG_TYPE.BOOT).HasListeners = false) ∧
      mScenario.LogWithFullPath LWARNING LOG_TYPE.BOOT "ts" "boot.cpp" 7 "m" =
        { did_format := false, emits := [] } :=
  ⟨Or.inl (by decide),
    claim_C3_filtered_call_is_noop mScenario LWARNING LOG_TYPE.BOOT "ts"
      "boot.cpp" 7 "m" (Or.inl (by decide))⟩

/-- C4: every delivered line has exactly the shape
timestamp, space, truncated file path, colon, line number, space, level
character, short name in brackets, colon-space, message, newline. -/
theorem claim_C4_line_shape (m : LogManager) (level : Nat) (type : LOG_TYPE)
    (ts file : String) (line : Nat) (msg : String) (p : Fin 32 × String)
    (hp : p ∈ (m.Log level type ts file line msg).emits) :
    p.2 = ts ++ " " ++ file.drop m.m_path_cutoff_point ++ ":" ++ toString line ++
      " " ++ String.singleton (LOG_LEVEL_TO_CHAR level) ++ "[" ++
      (m.m_log type).m_short_name ++ "]: " ++ msg ++ "\n" := by
  rw [LogManager.Log, logWithFullPath_eq] at hp
  by_cases hg : (!(m.m_log type).IsEnabled || decide (level > m.m_level) ||
      !(m.m_log type).HasListeners) = true
  · rw [if_pos hg] at hp
    simp at hp
  · rw [if_neg hg] at hp
    simp only [List.mem_map] at hp
    obtain ⟨id, _, hpe⟩ := hp
    rw [← hpe]
    rfl

/-- Witness for C4 on a concrete delivered message. -/
theorem claim_C4_line_shape_witness :
    ((CONSOLE_LISTENER, "12:34:567 audio.cpp:42 W[Audio]: buffer underrun\n") ∈
        (mScenario.Log LWARNING LOG_TYPE.AUDIO_T "12:34:567" "audio.cpp" 42
          "buffer underrun").emits) ∧
      ("12:34:567 audio.cpp:42 W[Audio]: buffer underrun\n" =
        "12:34:567" ++ " " ++ "audio.cpp".drop mScenario.m_path_cutoff_point ++
          ":" ++ toString 42 ++ " " ++
          String.singleton (LOG_LEVEL_TO_CHAR LWARNING) ++ "[" ++
          (mScenario.m_log LOG_TYPE.AUDIO_T).m_short_name ++ "]: " ++
          "buffer underrun" ++ "\n") :=
  ⟨by decide,
    claim_C4_line_shape mScenario LWARNING LOG_TYPE.AUDIO_T "12:34:567"
      "audio.cpp" 42 "buffer underrun"
      (CONSOLE_LISTENER, "12:34:567 audio.cpp:42 W[Audio]: buffer underrun\n")
      (by decide)⟩

/-- C10: AddListener makes the id a member and RemoveListener a non-member
regardless of prior membership (idempotent, add-then-remove leaves it
absent), neither touches other ids, the enabled flag or the names, and
HasListeners is true exactly when some id is a member. -/
theorem claim_C10_listener_set_algebra (c : LogContainer) (id id2 : Fin 32)
    (h : id2 ≠ id) :
    ((c.AddListener id).m_listener_ids id = true) ∧
      ((c.RemoveListener id).m_listener_ids id = false) ∧
      (((c.AddListener id).RemoveListener id).m_listener_ids id = false) ∧
      ((c.AddListener id).m_listener_ids id2 = c.m_listener_ids id2) ∧
      ((c.RemoveListener id).m_listener_ids id2 = c.m_listener_ids id2) ∧
      ((c.AddListener id).m_enable = c.m_enable) ∧
      ((c.RemoveListener id).m_enable = c.m_enable) ∧
      ((c.AddListener id).m_short_name = c.m_short_name) ∧
      ((c.AddListener id).m_full_name = c.m_full_name) ∧
      ((c.RemoveListener id).m_short_name = c.m_short_name) ∧
      ((c.RemoveListener id).m_full_name = c.m_full_name) ∧
      (c.HasListeners = true ↔ ∃ i, c.m_listener_ids i = true) := by
  refine ⟨?_, ?_, ?_, ?_, ?_, rfl, rfl, rfl, rfl, rfl, rfl, hasListeners_iff⟩
  · simp [LogContainer.AddListener]
  · simp [LogContainer.RemoveListener]
  · simp [LogContainer.AddListener, LogContainer.RemoveListener]
  · simp [LogContainer.AddListener, Function.update_noteq h]
  · simp [LogContainer.RemoveListener, Function.update_noteq h]

/-- Witness for C10 on a concrete container and distinct ids. -/
theorem claim_C10_listener_set_algebra_witness :
    (CONSOLE_LISTENER ≠ FILE_LISTENER) ∧
      (((initContainer LOG_TYPE.AUDIO_T).AddListener FILE_LISTENER).m_listener_ids
          FILE_LISTENER = true) ∧
      (((initContainer LOG_TYPE.AUDIO_T).RemoveListener FILE_LISTENER).m_listener_ids
          FILE_LISTENER = false) :=
  ⟨by decide,
    (claim_C10_listener_set_algebra (initContainer LOG_TYPE.AUDIO_T)
      FILE_LISTENER CONSOLE_LISTENER (by decide)).1,
    (claim_C10_listener_set_algebra (initContainer LOG_TYPE.AUDIO_T)
      FILE_LISTENER CONSOLE_LISTENER (by decide)).2.1⟩

lemma emits_fst_subscribed {m : LogManager} {level : Nat} {type : LOG_TYPE}
    {ts file : String} {line : Nat} {msg : String} {id : Fin 32}
    (h : id ∈ (m.LogWithFullPath level type ts file line msg).emits.map Prod.fst) :
    (m.m_log type).m_listener_ids id = true ∧ m.m_listeners id = true := by
  rw [logWithFullPath_eq] at h
  by_cases hg : (!(m.m_log type).IsEnabled || decide (level > m.m_level) ||
      !(m.m_log type).HasListeners) = true
  · rw [if_pos hg] at h
    simp at h
  · rw [if_neg hg] at h
    simp only [List.map_map] at h
    have : id ∈ (m.m_log type).listenerList.filter m.m_listeners := by
      simpa using h
    rw [List.mem_filter] at this
    exact ⟨mem_listenerList.mp this.1, this.2⟩

/-- C2: with the category enabled, the level passing and a live subscribed
Listener at id X, one log call emits exactly once to X; after
RemoveListener(c, X) every further log call for that category emits zero
times to X. -/
theorem claim_C2_exactly_one_emit (m : LogManager) (level : Nat) (type : LOG_TYPE)
    (ts file : String) (line : Nat) (msg : String) (X : Fin 32)
    (hen : (m.m_log type).m_enable = true)
    (hsub : (m.m_log type).m_listener_ids X = true)
    (hlive : m.m_listeners X = true)
    (hlev : level ≤ m.m_level) :
    (((m.LogWithFullPath level type ts file line msg).emits.map Prod.fst).count X = 1) ∧
      ∀ (level2 : Nat) (ts2 file2 : String) (line2 : Nat) (msg2 : String),
        ((((m.RemoveListener type X).LogWithFullPath level2 type ts2 file2
          line2 msg2).emits.map Prod.fst).count X = 0) := by
  constructor
  · rw [logWithFullPath_eq, if_neg]
    · have hl : ((m.m_log type).listenerList.filter m.m_listeners).Nodup :=
        (listenerList_nodup _).filter _
      have hx : X ∈ (m.m_log type).listenerList.filter m.m_listeners :=
        List.mem_filter.mpr ⟨mem_listenerList.mpr hsub, hlive⟩
      simp only [List.map_map]
      have hcomp : (Prod.fst ∘ fun id : Fin 32 =>
          (id, formatLine ts file line level (m.m_log type).GetShortName msg)) =
          fun id => id := rfl
      rw [hcomp, List.map_id']
      exact List.count_eq_one_of_mem hl hx
    · rw [Bool.not_eq_true]
      exact guard_eq_false_iff.mpr ⟨hen, hlev, hasListeners_iff.mpr ⟨X, hsub⟩⟩
  · intro level2 ts2 file2 line2 msg2
    rw [List.count_eq_zero]
    intro hmem
    have hids := (emits_fst_subscribed hmem).1
    have : ((m.RemoveListener type X).m_log type).m_listener_ids X = false := by
      simp [LogManager.RemoveListener, LogContainer.RemoveListener]
    rw [this] at hids
    exact Bool.false_ne_true hids

/-- Witness for C2 on the concrete scenario dispatcher. -/
theorem claim_C2_exactly_one_emit_witness :
    ((mScenario.m_log LOG_TYPE.AUDIO_T).m_enable = true ∧
        (mScenario.m_log LOG_TYPE.AUDIO_T).m_listener_ids CONSOLE_LISTENER = true ∧
        mScenario.m_listeners CONSOLE_LISTENER = true ∧
        LWARNING ≤ mScenario.m_level) ∧
      (((mScenario.LogWithFullPath LWARNING LOG_TYPE.AUDIO_T "ts" "audio.cpp" 42
        "m").emits.map Prod.fst).count CONSOLE_LISTENER = 1) ∧
      ((((mScenario.RemoveListener LOG_TYPE.AUDIO_T
          CONSOLE_LISTENER).LogWithFullPath LWARNING LOG_TYPE.AUDIO_T "ts"
          "audio.cpp" 43 "m2").emits.map Prod.fst).count CONSOLE_LISTENER = 0) :=
  ⟨⟨by decide, by decide, by decide, by decide⟩,
    (claim_C2_exactly_one_emit mScenario LWARNING LOG_TYPE.AUDIO_T "ts"
      "audio.cpp" 42 "m" CONSOLE_LISTENER (by decide) (by decide) (by decide)
      (by decide)).1,
    (claim_C2_exactly_one_emit mScenario LWARNING LOG_TYPE.AUDIO_T "ts"
      "audio.cpp" 42 "m" CONSOLE_LISTENER (by decide) (by decide) (by decide)
      (by decide)).2 LWARNING "ts" "audio.cpp" 43 "m2"⟩

/-- C5: FileListener emit is a silent no-op when disabled or invalid; a
construction failure leaves it permanently invalid so every later emit is a
no-op; otherwise emit appends the message verbatim. -/
theorem claim_C5_file_listener_degrade :
    (∀ (f : FileLogListener) (level : Nat) (msg : String),
        f.m_enable = false ∨ f.m_valid = false → f.Log level msg = f) ∧
      (∀ (trace : List (Nat × String)),
        trace.foldl (fun f lm => f.Log lm.1 lm.2) (FileLogListener.construct false) =
          FileLogListener.construct false) ∧
      (∀ (f : FileLogListener) (level : Nat) (msg : String),
        f.m_enable = true → f.m_valid = true →
          f.Log level msg = { f with m_contents := f.m_contents ++ [msg] }) := by
  refine ⟨?_, ?_, ?_⟩
  · intro f level msg h
    rcases h with h | h <;>
      simp [FileLogListener.Log, FileLogListener.IsEnabled, FileLogListener.IsValid, h]
  · intro trace
    induction trace with
    | nil => rfl
    | cons hd tl ih =>
      rw [List.foldl_cons,
        show (FileLogListener.construct false).Log hd.1 hd.2 =
          FileLogListener.construct false from rfl]
      exact ih
  · intro f level msg he hv
    simp [FileLogListener.Log, FileLogListener.IsEnabled, FileLogListener.IsValid, he, hv]

/-- Witness for C5: a failed-open listener swallows writes; a healthy one
appends them. -/
theorem claim_C5_file_listener_degrade_witness :
    ((FileLogListener.construct false).m_valid = false) ∧
      ((FileLogListener.construct false).Log LNOTICE "x" =
        FileLogListener.construct false) ∧
      ([(LNOTICE, "a"), (LERROR, "b")].foldl (fun f lm => f.Log lm.1 lm.2)
          (FileLogListener.construct false) = FileLogListener.construct false) ∧
      ((FileLogListener.construct true).Log LNOTICE "x" =
        { FileLogListener.construct true with m_contents := ["x"] }) :=
  ⟨rfl,
    claim_C5_file_listener_degrade.1 (FileLogListener.construct false) LNOTICE "x"
      (Or.inr rfl),
    claim_C5_file_listener_degrade.2.1 [(LNOTICE, "a"), (LERROR, "b")],
    claim_C5_file_listener_degrade.2.2 (FileLogListener.construct true) LNOTICE "x"
      rfl rfl⟩

/-- C6: out-of-range verbosity is clamped into the valid level range and
never kept; missing keys default to WriteToFile=false, WriteToConsole=true,
WriteToWindow=true and verbosity = minimum valid level. -/
theorem claim_C6_config_clamp_and_defaults (cfg : IniConfig) (fm : String) :
    (1 ≤ (mkLogManager cfg fm).m_level ∧
        (mkLogManager cfg fm).m_level ≤ MAX_LOGLEVEL) ∧
      (∀ v : Int, cfg.verbosity = some v → v < 1 →
        (mkLogManager cfg fm).m_level = 1) ∧
      (∀ v : Int, cfg.verbosity = some v → (MAX_LOGLEVEL : Int) < v →
        (mkLogManager cfg fm).m_level = MAX_LOGLEVEL) ∧
      (cfg.verbosity = none → (mkLogManager cfg fm).m_level = 1) ∧
      (cfg.write_to_file = none →
        mkLogManager cfg fm = mkLogManager { cfg with write_to_file := some false } fm) ∧
      (cfg.write_to_console = none →
        mkLogManager cfg fm = mkLogManager { cfg with write_to_console := some true } fm) ∧
      (cfg.write_to_window = none →
        mkLogManager cfg fm = mkLogManager { cfg with write_to_window := some true } fm) := by
  have hlevel : (mkLogManager cfg fm).m_level =
      (clampVerbosity (cfg.verbosity.getD 0)).toNat := rfl
  refine ⟨?_, ?_, ?_, ?_, ?_, ?_, ?_⟩
  · rw [hlevel]
    unfold clampVerbosity MAX_LOGLEVEL
    dsimp only
    split_ifs <;> omega
  · intro v hv hlt
    rw [hlevel, hv]
    unfold clampVerbosity
    dsimp only [Option.getD_some]
    rw [if_pos hlt, if_neg (by unfold MAX_LOGLEVEL; omega)]
    rfl
  · intro v hv hgt
    rw [hlevel, hv]
    unfold MAX_LOGLEVEL at hgt
    unfold clampVerbosity MAX_LOGLEVEL
    dsimp only [Option.getD_some]
    split_ifs <;> omega
  · intro hv
    rw [hlevel, hv]
    rfl
  · intro h
    cases cfg
    simp only at h
    subst h
    rfl
  · intro h
    cases cfg
    simp only at h
    subst h
    rfl
  · intro h
    cases cfg
    simp only at h
    subst h
    rfl

/-- Witness for C6 at a concrete out-of-range configuration. -/
theorem claim_C6_config_clamp_and_defaults_witness :
    (({ cfgScenario with verbosity := some 99 } : IniConfig).verbosity = some 99) ∧
      ((99 : Int) > (MAX_LOGLEVEL : Int)) ∧
      (mkLogManager { cfgScenario with verbosity := some 99 } "").m_level =
        MAX_LOGLEVEL :=
  ⟨rfl, by decide,
    (claim_C6_config_clamp_and_defaults { cfgScenario with verbosity := some 99 }
      "").2.2.1 99 rfl (by decide)⟩

/-- C7: Init then Shutdown destroys the owned Console and File listeners,
never the borrowed window listener, leaves the instance empty, and any log
call with no instance is a safe no-op that invokes no Listener. -/
theorem claim_C7_lifecycle_safety :
    (∀ (cfg : IniConfig) (fm : String),
        LogManagerShutdown (LogManagerInit cfg fm) = none) ∧
      (FILE_LISTENER ∈ destructorDeletedListenerIds) ∧
      (CONSOLE_LISTENER ∈ destructorDeletedListenerIds) ∧
      (LOG_WINDOW_LISTENER ∉ destructorDeletedListenerIds) ∧
      (∀ (level : Nat) (type : LOG_TYPE) (ts file : String) (line : Nat)
          (msg : String),
        GenericLog none level type ts file line msg =
          { did_format := false, emits := [] }) ∧
      (∀ (cfg : IniConfig) (fm : String) (level : Nat) (type : LOG_TYPE)
          (ts file : String) (line : Nat) (msg : String),
        GenericLog (LogManagerShutdown (LogManagerInit cfg fm)) level type ts
          file line msg = { did_format := false, emits := [] }) :=
  ⟨fun _ _ => rfl, by decide, by decide, by decide, fun _ _ _ _ _ _ => rfl,
    fun _ _ _ _ _ _ _ _ => rfl⟩

lemma initContainer_ids (t : LOG_TYPE) :
    (initContainer t).m_listener_ids = fun _ => false := by
  cases t <;> rfl

lemma wire_enable (c0 : LogContainer) (e wf wc ww : Bool) :
    (wireContainer c0 e wf wc ww).m_enable = e := by
  unfold wireContainer
  cases e <;> cases wf <;> cases wc <;> cases ww <;> rfl

lemma wire_ids_fun (c0 : LogContainer) (h0 : c0.m_listener_ids = fun _ => false)
    (e wf wc ww : Bool) :
    (wireContainer c0 e wf wc ww).m_listener_ids =
      fun id => if id = FILE_LISTENER then e && wf
        else if id = CONSOLE_LISTENER then e && wc
          else if id = LOG_WINDOW_LISTENER then e && ww
            else false := by
  cases e <;> cases wf <;> cases wc <;> cases ww <;>
    simp [wireContainer, LogContainer.AddListener, LogContainer.SetEnable, h0] <;>
    decide

lemma wire_ids (c0 : LogContainer) (h0 : c0.m_listener_ids = fun _ => false)
    (e wf wc ww : Bool) (id : Fin 32) :
    (wireContainer c0 e wf wc ww).m_listener_ids id =
      (if id = FILE_LISTENER then e && wf
        else if id = CONSOLE_LISTENER then e && wc
          else if id = LOG_WINDOW_LISTENER then e && ww
            else false) :=
  congrFun (wire_ids_fun c0 h0 e wf wc ww) id

lemma mkLogManager_log (cfg : IniConfig) (fm : String) (t : LOG_TYPE) :
    (mkLogManager cfg fm).m_log t =
      wireContainer (initContainer t)
        ((cfg.logs (initContainer t).m_short_name).getD false)
        (cfg.write_to_file.getD false) (cfg.write_to_console.getD true)
        (cfg.write_to_window.getD true) := rfl

/-- C8: at construction each category's enabled flag comes from the
per-short-name configuration boolean (default false), its listener set
holds the File/Console/Window ids exactly when it is enabled and the
matching write boolean is set, no other id is ever subscribed, a disabled
category subscribes to nothing; and the Audio scenario produces one Console
emit containing "[Audio]" and the message, and zero File emits. -/
theorem claim_C8_construction_wiring (cfg : IniConfig) (fm : String)
    (t : LOG_TYPE) (id : Fin 32) (hid1 : id ≠ FILE_LISTENER)
    (hid2 : id ≠ CONSOLE_LISTENER) (hid3 : id ≠ LOG_WINDOW_LISTENER) :
    (((mkLogManager cfg fm).m_log t).m_enable =
        (cfg.logs (initContainer t).m_short_name).getD false) ∧
      (((mkLogManager cfg fm).m_log t).m_listener_ids FILE_LISTENER =
        ((cfg.logs (initContainer t).m_short_name).getD false &&
          cfg.write_to_file.getD false)) ∧
      (((mkLogManager cfg fm).m_log t).m_listener_ids CONSOLE_LISTENER =
        ((cfg.logs (initContainer t).m_short_name).getD false &&
          cfg.write_to_console.getD true)) ∧
      (((mkLogManager cfg fm).m_log t).m_listener_ids LOG_WINDOW_LISTENER =
        ((cfg.logs (initContainer t).m_short_name).getD false &&
          cfg.write_to_window.getD true)) ∧
      (((mkLogManager cfg fm).m_log t).m_listener_ids id = false) ∧
      ((cfg.logs (initContainer t).m_short_name).getD false = false →
        ∀ j : Fin 32, ((mkLogManager cfg fm).m_log t).m_listener_ids j = false) ∧
      (((GenericLog (LogManagerInit cfgScenario "") LWARNING LOG_TYPE.AUDIO_T
          "12:34:567" "audio.cpp" 42 "buffer underrun").emits.map
          Prod.fst).count CONSOLE_LISTENER = 1) ∧
      (((GenericLog (LogManagerInit cfgScenario "") LWARNING LOG_TYPE.AUDIO_T
          "12:34:567" "audio.cpp" 42 "buffer underrun").emits.map
          Prod.fst).count FILE_LISTENER = 0) ∧
      (∀ p ∈ (GenericLog (LogManagerInit cfgScenario "") LWARNING
          LOG_TYPE.AUDIO_T "12:34:567" "audio.cpp" 42 "buffer underrun").emits,
        (∃ a b, p.2 = a ++ "[Audio]" ++ b) ∧
          (∃ a b, p.2 = a ++ "buffer underrun" ++ b)) := by
  refine ⟨?_, ?_, ?_, ?_, ?_, ?_, by decide, by decide, ?_⟩
  · rw [mkLogManager_log, wire_enable]
  · rw [mkLogManager_log, wire_ids _ (initContainer_ids t), if_pos rfl]
  · rw [mkLogManager_log, wire_ids _ (initContainer_ids t), if_neg (by decide),
      if_pos rfl]
  · rw [mkLogManager_log, wire_ids _ (initContainer_ids t), if_neg (by decide),
      if_neg (by decide), if_pos rfl]
  · rw [mkLogManager_log, wire_ids _ (initContainer_ids t), if_neg hid1,
      if_neg hid2, if_neg hid3]
  · intro he j
    rw [mkLogManager_log, wire_ids _ (initContainer_ids t), he]
    simp only [Bool.false_and]
    split_ifs <;> rfl
  · intro p hp
    have he : (GenericLog (LogManagerInit cfgScenario "") LWARNING
        LOG_TYPE.AUDIO_T "12:34:567" "audio.cpp" 42 "buffer underrun").emits =
        [(CONSOLE_LISTENER, "12:34:567 audio.cpp:42 W[Audio]: buffer underrun\n")] := by
      decide
    rw [he, List.mem_singleton] at hp
    subst hp
    exact ⟨⟨"12:34:567 audio.cpp:42 W", ": buffer underrun\n", by decide⟩,
      ⟨"12:34:567 audio.cpp:42 W[Audio]: ", "\n", by decide⟩⟩

/-- Witness for C8 at a concrete configuration, category and listener id. -/
theorem claim_C8_construction_wiring_witness :
    ((3 : Fin 32) ≠ FILE_LISTENER) ∧
      (((mkLogManager cfgScenario "").m_log LOG_TYPE.AUDIO_T).m_enable =
        (cfgScenario.logs (initContainer LOG_TYPE.AUDIO_T).m_short_name).getD false) ∧
      (((GenericLog (LogManagerInit cfgScenario "") LWARNING LOG_TYPE.AUDIO_T
          "12:34:567" "audio.cpp" 42 "buffer underrun").emits.map
          Prod.fst).count CONSOLE_LISTENER = 1) :=
  ⟨by decide,
    (claim_C8_construction_wiring cfgScenario "" LOG_TYPE.AUDIO_T 3 (by decide)
      (by decide) (by decide)).1,
    (claim_C8_construction_wiring cfgScenario "" LOG_TYPE.AUDIO_T 3 (by decide)
      (by decide) (by decide)).2.2.2.2.2.2.1⟩
